import Mathlib

/-!
# Verification of the matrix-rss poll-diff-notify loop

Shallow embedding of the core of `src/main.go` (and the variant in
`src/unnamed/part_000`): the per-feed poll step, the cycle over all
configured feed URLs, the in-memory last-update tracker, message
composition, and the Matrix delivery call.

External effects (the HTTP transport, the markdown-to-HTML converter,
fetch results) are passed in as explicit parameters, so every function
here is pure and executable.
-/

/-- One parsed feed entry: `Entry` in main.go, with `Title`, `Updated`
and the nested `Link.Href` flattened to `linkHref`. -/
structure Entry where
  title : String
  updated : String
  linkHref : String
deriving Repr, DecidableEq

/-- A parsed feed: `Feed` in main.go (just the ordered entry list). -/
structure Feed where
  entries : List Entry
deriving Repr, DecidableEq

/-- The `lastUpdates` map of main.go: a Go `map[string]string`, modelled
as a partial map so that an absent key ("never recorded") is
distinguishable from a recorded value. -/
abbrev Tracker := String → Option String

/-- Go map read `lastUpdates[feedURL]`: an absent key yields the zero
value `""`. -/
def Tracker.lookupGo (tr : Tracker) (url : String) : String :=
  (tr url).getD ""

/-- Go map write `lastUpdates[feedURL] = marker`. -/
def Tracker.record (tr : Tracker) (url marker : String) : Tracker :=
  fun v => if v = url then some marker else tr v

/-- The newness test of the loop body, the guard
`feed.Entries[0].Updated != lastUpdates[feedURL]` in main.go
(exact string inequality on the Go map read). -/
def isNewUpdate (tr : Tracker) (url candidateMarker : String) : Bool :=
  candidateMarker != Tracker.lookupGo tr url

/-- Message composition,
`fmt.Sprintf("IT-News: [%s](%s)", feed.Entries[0].Title, feed.Entries[0].Link.Href)`. -/
def composeMessage (e : Entry) : String :=
  "IT-News: [" ++ e.title ++ "](" ++ e.linkHref ++ ")"

/-- Failure of `fetchFeed`: the HTTP GET failed or the body did not
parse as XML. -/
inductive FetchError
  | transportError
  | parseError
deriving Repr, DecidableEq

/-- Failure of `sendMatrixMessage`: the request could not be
constructed or sent, or the response status was not 200. -/
inductive SendError
  | requestFailed
  | badStatus (status : Nat)
deriving Repr, DecidableEq

/-- Outcome of handing a request to the HTTP transport: either the
request could not be constructed/sent, or a response with some status
came back. -/
inductive HttpOutcome
  | requestError
  | response (status : Nat)
deriving Repr, DecidableEq

/-- The JSON payload built by `sendMatrixMessage`: exactly the four
fields of the `payload` map literal in main.go. -/
structure MatrixPayload where
  msgtype : String
  body : String
  format : String
  formatted_body : String
deriving Repr, DecidableEq

/-- The outbound HTTP request built by `sendMatrixMessage`: POST, the
formatted endpoint URL, the `Content-Type: application/json` header,
and the JSON payload. -/
structure MatrixRequest where
  method : String
  url : String
  contentType : String
  payload : MatrixPayload
deriving Repr, DecidableEq

/-- `sendMatrixMessage(server, roomID, token, message)` from main.go.
The markdown library call `markdown.ToHTML` is the parameter
`mdToHTML`; the composite of `json.Marshal`, `http.NewRequest` and
`client.Do` is the parameter `http` (an `HttpOutcome.requestError`
covers any of them failing, in which case the Go function returns that
error). On a response, status 200 is success and anything else is
`failed to send message`. -/
def sendMatrixMessage (mdToHTML : String → String)
    (http : MatrixRequest → HttpOutcome)
    (server roomID token message : String) : Except SendError Unit :=
  let htmlMessage := mdToHTML message
  let url := server ++ "/_matrix/client/r0/rooms/" ++ roomID ++
    "/send/m.room.message?access_token=" ++ token
  let payload : MatrixPayload :=
    { msgtype := "m.text", body := message,
      format := "org.matrix.custom.html", formatted_body := htmlMessage }
  match http { method := "POST", url := url,
               contentType := "application/json", payload := payload } with
  | HttpOutcome.requestError => Except.error SendError.requestFailed
  | HttpOutcome.response status =>
      if status ≠ 200 then Except.error (SendError.badStatus status)
      else Except.ok ()

/-- The body of the inner `for _, feedURL := range config.FeedURLs`
loop in main.go, for one feed URL. `fetchResult` is what
`fetchFeed(feedURL)` returned; `deliver` is `sendMatrixMessage`
partially applied to the configured server, room and token. Returns
the updated `lastUpdates` map and the list of messages handed to
`sendMatrixMessage` (zero or one). The delivery result is only
logged by the Go code, so it does not influence the returned state. -/
def processFeed (tr : Tracker) (feedURL : String)
    (fetchResult : Except FetchError Feed)
    (deliver : String → Except SendError Unit) :
    Tracker × List String :=
  match fetchResult with
  | Except.error _ => (tr, [])
  | Except.ok feed =>
    match feed.entries with
    | [] => (tr, [])
    | e :: _ =>
      if isNewUpdate tr feedURL e.updated then
        let tr' := Tracker.record tr feedURL e.updated
        let message := composeMessage e
        let _ := deliver message
        (tr', [message])
      else
        (tr, [])

/-- One full cycle: the inner `for` loop of main.go over all configured
feed URLs, threading the `lastUpdates` map through the per-feed steps.
Returns the final map and the list of `(feedURL, message)` notification
attempts, in order. -/
def runCycle (tr : Tracker) (feedURLs : List String)
    (fetch : String → Except FetchError Feed)
    (deliver : String → Except SendError Unit) :
    Tracker × List (String × String) :=
  match feedURLs with
  | [] => (tr, [])
  | url :: rest =>
    let step := processFeed tr url (fetch url) deliver
    let next := runCycle step.1 rest fetch deliver
    (next.1, step.2.map (fun m => (url, m)) ++ next.2)

/-! ## Helper lemmas -/

/-- A feed step whose fetch failed is a no-op. -/
theorem processFeed_fetch_error (tr : Tracker) (url : String) (err : FetchError)
    (deliver : String → Except SendError Unit) :
    processFeed tr url (Except.error err) deliver = (tr, []) := rfl

/-- A feed step never touches the tracker at a different key. -/
theorem processFeed_fst_apply_ne (tr : Tracker) (url : String)
    (fr : Except FetchError Feed) (deliver : String → Except SendError Unit)
    (v : String) (hv : v ≠ url) :
    (processFeed tr url fr deliver).1 v = tr v := by
  cases fr with
  | error e => rfl
  | ok feed =>
    cases feed with
    | mk entries =>
      cases entries with
      | nil => rfl
      | cons e rest =>
        by_cases hg : isNewUpdate tr url e.updated <;>
          simp [processFeed, hg, Tracker.record, hv]

/-- If fetching feed `A` fails, a whole cycle leaves the tracker
unchanged at key `A`. -/
theorem runCycle_fst_apply_of_fetch_error (fetch : String → Except FetchError Feed)
    (deliver : String → Except SendError Unit) (A : String) (err : FetchError)
    (h : fetch A = Except.error err) (urls : List String) (tr : Tracker) :
    (runCycle tr urls fetch deliver).1 A = tr A := by
  induction urls generalizing tr with
  | nil => rfl
  | cons u rest ih =>
    show (runCycle (processFeed tr u (fetch u) deliver).1 rest fetch deliver).1 A = tr A
    rw [ih]
    by_cases hu : A = u
    · subst hu; rw [h, processFeed_fetch_error]
    · exact processFeed_fst_apply_ne tr u (fetch u) deliver A hu

/-- If fetching feed `A` fails, a whole cycle behaves as if `A` were
not configured at all. -/
theorem runCycle_filter_of_fetch_error (fetch : String → Except FetchError Feed)
    (deliver : String → Except SendError Unit) (A : String) (err : FetchError)
    (h : fetch A = Except.error err) (urls : List String) (tr : Tracker) :
    runCycle tr urls fetch deliver
      = runCycle tr (urls.filter (fun u => u != A)) fetch deliver := by
  induction urls generalizing tr with
  | nil => rfl
  | cons u rest ih =>
    by_cases hu : u = A
    · subst hu
      have hstep : processFeed tr u (fetch u) deliver = (tr, []) := by
        rw [h]; rfl
      simp [runCycle, hstep, ih]
    · have hf : (u != A) = true := by simp [hu]
      simp [runCycle, List.filter, hf, ih]

/-! ## Claim theorems -/

/-- Claim C1, counterexample: with an empty tracker (no marker ever
recorded for "u"), the marker "m" is judged new and delivery fails,
yet the step leaves the tracker at `some "m"` for "u" — not absent as
the claim requires. The Go code writes `lastUpdates[feedURL]` before
calling `sendMatrixMessage`. -/
theorem C1_record_before_send_counterexample :
    (fun _ => none : Tracker) "u" = none ∧
    isNewUpdate (fun _ => none) "u" "m" = true ∧
    (processFeed (fun _ => none) "u"
        (Except.ok ⟨[⟨"t", "m", "l"⟩]⟩)
        (fun _ => Except.error SendError.requestFailed)).1 "u" = some "m" :=
  ⟨rfl, rfl, rfl⟩

/-- Claim C1, amended: whenever the first-entry marker is judged new,
the tracker is updated to that marker BEFORE delivery is attempted,
for every delivery outcome (including failure); consequently the same
marker is judged not-new afterwards and the next cycle does not retry
the notification. -/
theorem C1_record_before_send (tr : Tracker) (url : String) (e : Entry)
    (rest : List Entry) (deliver : String → Except SendError Unit)
    (err : SendError)
    (hnew : isNewUpdate tr url e.updated = true)
    (_hfail : deliver (composeMessage e) = Except.error err) :
    (processFeed tr url (Except.ok ⟨e :: rest⟩) deliver).1 url = some e.updated ∧
    isNewUpdate (processFeed tr url (Except.ok ⟨e :: rest⟩) deliver).1 url
      e.updated = false ∧
    processFeed (processFeed tr url (Except.ok ⟨e :: rest⟩) deliver).1 url
      (Except.ok ⟨e :: rest⟩) deliver
      = ((processFeed tr url (Except.ok ⟨e :: rest⟩) deliver).1, []) := by
  have hstep : processFeed tr url (Except.ok ⟨e :: rest⟩) deliver
      = (Tracker.record tr url e.updated, [composeMessage e]) := by
    simp [processFeed, hnew]
  have hrec : (Tracker.record tr url e.updated) url = some e.updated := by
    simp [Tracker.record]
  have hnot : isNewUpdate (Tracker.record tr url e.updated) url e.updated
      = false := by
    simp [isNewUpdate, Tracker.lookupGo, hrec]
  refine ⟨by rw [hstep]; exact hrec, by rw [hstep]; exact hnot, ?_⟩
  rw [hstep]
  simp [processFeed, hnot]

/-- Claim C1, witness for the amended theorem at a concrete input. -/
theorem C1_record_before_send_witness :
    isNewUpdate (fun _ => none) "w" "2024" = true ∧
    (fun _ => Except.error SendError.requestFailed :
        String → Except SendError Unit) (composeMessage ⟨"T", "2024", "L"⟩)
      = Except.error SendError.requestFailed ∧
    ((processFeed (fun _ => none) "w" (Except.ok ⟨[⟨"T", "2024", "L"⟩]⟩)
        (fun _ => Except.error SendError.requestFailed)).1 "w" = some "2024" ∧
     isNewUpdate (processFeed (fun _ => none) "w"
        (Except.ok ⟨[⟨"T", "2024", "L"⟩]⟩)
        (fun _ => Except.error SendError.requestFailed)).1 "w" "2024" = false ∧
     processFeed (processFeed (fun _ => none) "w"
        (Except.ok ⟨[⟨"T", "2024", "L"⟩]⟩)
        (fun _ => Except.error SendError.requestFailed)).1 "w"
        (Except.ok ⟨[⟨"T", "2024", "L"⟩]⟩)
        (fun _ => Except.error SendError.requestFailed)
       = ((processFeed (fun _ => none) "w" (Except.ok ⟨[⟨"T", "2024", "L"⟩]⟩)
            (fun _ => Except.error SendError.requestFailed)).1, [])) :=
  ⟨rfl, rfl,
    C1_record_before_send (fun _ => none) "w" ⟨"T", "2024", "L"⟩ []
      (fun _ => Except.error SendError.requestFailed)
      SendError.requestFailed rfl rfl⟩

/-- Claim C2, counterexample: with no marker recorded for "u" the claim
says the newness test returns true for every candidate, but for the
empty candidate marker the Go expression `"" != lastUpdates["u"]`
compares two empty strings and returns false (the absent key reads as
the zero value ""). -/
theorem C2_newness_counterexample :
    (fun _ => none : Tracker) "u" = none ∧
    isNewUpdate (fun _ => none) "u" "" = false :=
  ⟨rfl, rfl⟩

/-- Claim C2, amended: the newness test returns true iff the candidate
marker differs, by exact string inequality, from the recorded marker
read with "absent = empty string": i.e. iff either a marker is recorded
and differs from the candidate, or no marker is recorded and the
candidate is non-empty. No time-based comparison is involved. -/
theorem C2_newness_test (tr : Tracker) (url m : String) :
    isNewUpdate tr url m = true ↔
      ((∃ r, tr url = some r ∧ r ≠ m) ∨ (tr url = none ∧ m ≠ "")) := by
  unfold isNewUpdate Tracker.lookupGo
  cases h : tr url with
  | none => simp [bne_iff_ne]
  | some r => simp [bne_iff_ne, ne_comm]

/-- Claim C3, counterexample: empty tracker, successful fetch with one
entry whose update marker is the empty string — zero notifications are
triggered, not exactly one, so "regardless of the value of the first
entry's update marker" fails. -/
theorem C3_first_cycle_counterexample :
    (fun _ => none : Tracker) "u" = none ∧
    (processFeed (fun _ => none) "u"
        (Except.ok ⟨[⟨"t", "", "l"⟩]⟩)
        (fun _ => Except.ok ())).2 = [] :=
  ⟨rfl, rfl⟩

/-- Claim C3, amended: for a feed with no recorded marker, a successful
fetch with at least one entry triggers exactly one notification,
composed from the first entry's title and link, PROVIDED the first
entry's update marker is non-empty (an empty marker compares equal to
the absent-key read and triggers nothing). -/
theorem C3_first_cycle_notifies (tr : Tracker) (url : String) (e : Entry)
    (rest : List Entry) (deliver : String → Except SendError Unit)
    (habs : tr url = none) (hm : e.updated ≠ "") :
    processFeed tr url (Except.ok ⟨e :: rest⟩) deliver
      = (Tracker.record tr url e.updated, [composeMessage e]) := by
  have hl : Tracker.lookupGo tr url = "" := by
    simp [Tracker.lookupGo, habs]
  simp [processFeed, isNewUpdate, hl, bne_iff_ne, hm]

/-- Claim C3, witness for the amended theorem at a concrete input. -/
theorem C3_first_cycle_notifies_witness :
    (fun _ => none : Tracker) "f" = none ∧
    ("2024-05-01" : String) ≠ "" ∧
    processFeed (fun _ => none) "f"
        (Except.ok ⟨[⟨"Big Release", "2024-05-01", "https://x.io/a"⟩]⟩)
        (fun _ => Except.ok ())
      = (Tracker.record (fun _ => none) "f" "2024-05-01",
         [composeMessage ⟨"Big Release", "2024-05-01", "https://x.io/a"⟩]) :=
  ⟨rfl, by decide,
    C3_first_cycle_notifies (fun _ => none) "f"
      ⟨"Big Release", "2024-05-01", "https://x.io/a"⟩ []
      (fun _ => Except.ok ()) rfl (by decide)⟩

/-- Claim C4: the notification message composed from a first entry with
title t and link l is the literal string "IT-News: [t](l)"; in
particular title "Big Release" and link "https://x.io/a" yield exactly
"IT-News: [Big Release](https://x.io/a)". -/
theorem C4_message_format :
    (∀ t u l : String,
      composeMessage ⟨t, u, l⟩ = "IT-News: [" ++ t ++ "](" ++ l ++ ")") ∧
    composeMessage ⟨"Big Release", "any", "https://x.io/a"⟩
      = "IT-News: [Big Release](https://x.io/a)" :=
  ⟨fun _ _ _ => rfl, rfl⟩

/-- Claim C5: if fetching feed A fails, the cycle behaves exactly as if
A were not in the configured list — every other feed is processed
normally, the cycle is not aborted (runCycle is total and its result is
that of the cycle without A), and the tracker entry for A is
unchanged. -/
theorem C5_fetch_error_isolated (tr : Tracker) (urls : List String)
    (fetch : String → Except FetchError Feed)
    (deliver : String → Except SendError Unit) (A : String) (err : FetchError)
    (h : fetch A = Except.error err) :
    runCycle tr urls fetch deliver
      = runCycle tr (urls.filter (fun u => u != A)) fetch deliver ∧
    (runCycle tr urls fetch deliver).1 A = tr A :=
  ⟨runCycle_filter_of_fetch_error fetch deliver A err h urls tr,
   runCycle_fst_apply_of_fetch_error fetch deliver A err h urls tr⟩

/-- Claim C5, witness at a concrete two-feed cycle where the first
feed's fetch fails. -/
theorem C5_fetch_error_isolated_witness :
    (fun u => if u = "bad" then Except.error FetchError.transportError
              else Except.ok ⟨[⟨"T", "m", "L"⟩]⟩ :
      String → Except FetchError Feed) "bad"
        = Except.error FetchError.transportError ∧
    (runCycle (fun _ => none) ["bad", "good"]
        (fun u => if u = "bad" then Except.error FetchError.transportError
                  else Except.ok ⟨[⟨"T", "m", "L"⟩]⟩)
        (fun _ => Except.ok ())
      = runCycle (fun _ => none)
          (["bad", "good"].filter (fun u => u != "bad"))
          (fun u => if u = "bad" then Except.error FetchError.transportError
                    else Except.ok ⟨[⟨"T", "m", "L"⟩]⟩)
          (fun _ => Except.ok ()) ∧
     (runCycle (fun _ => none) ["bad", "good"]
        (fun u => if u = "bad" then Except.error FetchError.transportError
                  else Except.ok ⟨[⟨"T", "m", "L"⟩]⟩)
        (fun _ => Except.ok ())).1 "bad" = (fun _ => none : Tracker) "bad") :=
  ⟨rfl,
    C5_fetch_error_isolated (fun _ => none) ["bad", "good"]
      (fun u => if u = "bad" then Except.error FetchError.transportError
                else Except.ok ⟨[⟨"T", "m", "L"⟩]⟩)
      (fun _ => Except.ok ()) "bad" FetchError.transportError rfl⟩

/-- Claim C6: when the fetched first-entry marker equals the recorded
marker (as read through the Go map, absent = ""), the step sends no
notification and returns the tracker unchanged in every entry,
whatever the entry's title and link are. -/
theorem C6_same_marker_noop (tr : Tracker) (url : String) (e : Entry)
    (rest : List Entry) (deliver : String → Except SendError Unit)
    (h : e.updated = Tracker.lookupGo tr url) :
    processFeed tr url (Except.ok ⟨e :: rest⟩) deliver = (tr, []) := by
  simp [processFeed, isNewUpdate, h]

/-- Claim C6, witness: a tracker that records "m" for "u", and a fetch
whose first entry has marker "m" but a changed title and link. -/
theorem C6_same_marker_noop_witness :
    ("m" : String) = Tracker.lookupGo (Tracker.record (fun _ => none) "u" "m") "u" ∧
    processFeed (Tracker.record (fun _ => none) "u" "m") "u"
        (Except.ok ⟨[⟨"changed title", "m", "changed link"⟩]⟩)
        (fun _ => Except.ok ())
      = (Tracker.record (fun _ => none) "u" "m", []) :=
  ⟨rfl,
    C6_same_marker_noop (Tracker.record (fun _ => none) "u" "m") "u"
      ⟨"changed title", "m", "changed link"⟩ [] (fun _ => Except.ok ()) rfl⟩

/-- Claim C7: a cycle step whose fetched entry sequence is empty is a
no-op (no notification attempted, tracker returned unchanged); and in
the two-feed scenario where feed1 returns one entry with marker
"2024-01-01T00:00Z" and feed2 returns no entries, exactly one
notification fires (for feed1), the tracker maps feed1 to that marker
and has no entry for feed2. -/
theorem C7_empty_entries_noop :
    (∀ (tr : Tracker) (url : String) (d : String → Except SendError Unit),
      processFeed tr url (Except.ok ⟨[]⟩) d = (tr, [])) ∧
    (runCycle (fun _ => none) ["feed1", "feed2"]
        (fun u => if u = "feed1"
                  then Except.ok ⟨[⟨"T", "2024-01-01T00:00Z", "L"⟩]⟩
                  else Except.ok ⟨[]⟩)
        (fun _ => Except.ok ())).2
      = [("feed1", "IT-News: [T](L)")] ∧
    (runCycle (fun _ => none) ["feed1", "feed2"]
        (fun u => if u = "feed1"
                  then Except.ok ⟨[⟨"T", "2024-01-01T00:00Z", "L"⟩]⟩
                  else Except.ok ⟨[]⟩)
        (fun _ => Except.ok ())).1 "feed1" = some "2024-01-01T00:00Z" ∧
    (runCycle (fun _ => none) ["feed1", "feed2"]
        (fun u => if u = "feed1"
                  then Except.ok ⟨[⟨"T", "2024-01-01T00:00Z", "L"⟩]⟩
                  else Except.ok ⟨[]⟩)
        (fun _ => Except.ok ())).1 "feed2" = none :=
  ⟨fun _ _ _ => rfl, by decide, by decide, by decide⟩

/-- Claim C8: the delivery call issues one POST to
{server}/_matrix/client/r0/rooms/{roomID}/send/m.room.message
?access_token={token} carrying exactly the four-field JSON payload
(msgtype "m.text", body = the message, format "org.matrix.custom.html",
formatted_body = the markdown-converted message), and succeeds iff the
transport could construct/send that exact request and answered
HTTP 200; any other outcome is an error. -/
theorem C8_send_matrix_contract (mdToHTML : String → String)
    (http : MatrixRequest → HttpOutcome) (server roomID token message : String) :
    sendMatrixMessage mdToHTML http server roomID token message = Except.ok () ↔
      http { method := "POST",
             url := server ++ "/_matrix/client/r0/rooms/" ++ roomID ++
               "/send/m.room.message?access_token=" ++ token,
             contentType := "application/json",
             payload := { msgtype := "m.text", body := message,
                          format := "org.matrix.custom.html",
                          formatted_body := mdToHTML message } }
        = HttpOutcome.response 200 := by
  rcases hh : http ⟨"POST",
      server ++ "/_matrix/client/r0/rooms/" ++ roomID ++
        "/send/m.room.message?access_token=" ++ token,
      "application/json",
      ⟨"m.text", message, "org.matrix.custom.html", mdToHTML message⟩⟩
    with _ | s
  · simp [sendMatrixMessage, hh]
  · by_cases hs : s = 200 <;> simp [sendMatrixMessage, hh, hs]

/-- Claim C9: for two snapshots of the same feed evaluated against the
same tracker, equal first-entry markers (or both snapshots empty) give
the identical notify-or-skip decision, whatever the titles, links or
delivery functions are. -/
theorem C9_decision_marker_only (tr : Tracker) (url : String) (f1 f2 : Feed)
    (d1 d2 : String → Except SendError Unit)
    (h : match f1.entries, f2.entries with
         | e1 :: _, e2 :: _ => e1.updated = e2.updated
         | [], [] => True
         | _, _ => False) :
    (processFeed tr url (Except.ok f1) d1).2.length
      = (processFeed tr url (Except.ok f2) d2).2.length := by
  cases f1 with
  | mk l1 =>
    cases f2 with
    | mk l2 =>
      cases l1 with
      | nil =>
        cases l2 with
        | nil => rfl
        | cons e2 t2 => exact False.elim h
      | cons e1 t1 =>
        cases l2 with
        | nil => exact False.elim h
        | cons e2 t2 =>
          have hm : e1.updated = e2.updated := h
          by_cases hg : isNewUpdate tr url e2.updated <;>
            simp [processFeed, hm, hg]

/-- Claim C9, witness: two snapshots sharing marker "m" but with
different titles, links and delivery outcomes. -/
theorem C9_decision_marker_only_witness :
    Entry.updated ⟨"A", "m", "x"⟩ = Entry.updated ⟨"B", "m", "y"⟩ ∧
    (processFeed (fun _ => none) "u" (Except.ok ⟨[⟨"A", "m", "x"⟩]⟩)
        (fun _ => Except.ok ())).2.length
      = (processFeed (fun _ => none) "u" (Except.ok ⟨[⟨"B", "m", "y"⟩]⟩)
        (fun _ => Except.error SendError.requestFailed)).2.length :=
  ⟨rfl,
    C9_decision_marker_only (fun _ => none) "u" ⟨[⟨"A", "m", "x"⟩]⟩
      ⟨[⟨"B", "m", "y"⟩]⟩ (fun _ => Except.ok ())
      (fun _ => Except.error SendError.requestFailed) rfl⟩

/-- Claim C10: for a feed whose first entry carries the empty-string
marker and for which nothing was ever recorded, the absent-key read
yields "" which equals the candidate, so the step sends nothing and
leaves the tracker unchanged — "never notified" is indistinguishable
from "last notified with empty marker". -/
theorem C10_empty_marker_absent_key (tr : Tracker) (url : String) (e : Entry)
    (rest : List Entry) (deliver : String → Except SendError Unit)
    (habs : tr url = none) (hm : e.updated = "") :
    Tracker.lookupGo tr url = "" ∧
    isNewUpdate tr url e.updated = false ∧
    processFeed tr url (Except.ok ⟨e :: rest⟩) deliver = (tr, []) := by
  have hl : Tracker.lookupGo tr url = "" := by
    simp [Tracker.lookupGo, habs]
  have hn : isNewUpdate tr url e.updated = false := by
    simp [isNewUpdate, hl, hm]
  exact ⟨hl, hn, by simp [processFeed, hn]⟩

/-- Claim C10, witness at a concrete empty tracker and empty marker. -/
theorem C10_empty_marker_absent_key_witness :
    (fun _ => none : Tracker) "u" = none ∧
    Entry.updated ⟨"t", "", "l"⟩ = "" ∧
    (Tracker.lookupGo (fun _ => none) "u" = "" ∧
     isNewUpdate (fun _ => none) "u" (Entry.updated ⟨"t", "", "l"⟩) = false ∧
     processFeed (fun _ => none) "u" (Except.ok ⟨[⟨"t", "", "l"⟩]⟩)
        (fun _ => Except.ok ())
       = ((fun _ => none : Tracker), [])) :=
  ⟨rfl, rfl,
    C10_empty_marker_absent_key (fun _ => none) "u" ⟨"t", "", "l"⟩ []
      (fun _ => Except.ok ()) rfl rfl⟩
